import Mathlib

/-!
Verification of the SL-wallet transaction-construction and network-message
core (`broadcast_transaction.py`, `network.py`) against its specification.

Byte strings are modelled as `List Nat` with every element `< 256`.
Python's `int.to_bytes(k, ...)` raises `OverflowError` on out-of-range
values, and `bytes([n])` raises `ValueError` for `n ≥ 256`; both are
modelled by `Option`-returning conversions, so a failing Python call is a
`none` result.
-/

set_option maxRecDepth 16384

namespace SLWallet

/-- `n.to_bytes(k, 'little')` for an in-range natural number (total form). -/
def natLE (k n : Nat) : List Nat :=
  (List.range k).map (fun i => (n >>> (8 * i)) % 256)

/-- `n.to_bytes(k, 'big')` for an in-range natural number (total form). -/
def natBE (k n : Nat) : List Nat :=
  (List.range k).map (fun i => (n >>> (8 * (k - 1 - i))) % 256)

/-- Python `x.to_bytes(k, 'little')` on an `int`: fails (`OverflowError`)
unless `0 ≤ x < 2^(8k)`. -/
def intToBytesLE (k : Nat) (x : Int) : Option (List Nat) :=
  if 0 ≤ x ∧ x < (2 : Int) ^ (8 * k) then some (natLE k x.toNat) else none

/-- Python `x.to_bytes(k, 'big')` on an `int`: fails (`OverflowError`)
unless `0 ≤ x < 2^(8k)`. -/
def intToBytesBE (k : Nat) (x : Int) : Option (List Nat) :=
  if 0 ≤ x ∧ x < (2 : Int) ^ (8 * k) then some (natBE k x.toNat) else none

/-- Python `bytes([n])`: fails (`ValueError`) unless `n < 256`. -/
def byte1 (n : Nat) : Option (List Nat) :=
  if n < 256 then some [n] else none

/-!
## SHA-256

Modelled from the spec: the repository's `crypto.py` (absent from `src/`)
provides `dsha256`, which the spec defines as the double SHA-256
("`digest(preimage)` returns the double-hash of the preimage").  SHA-256
itself is the FIPS 180-4 function, implemented here over byte lists with
32-bit words as `Nat` reduced modulo `2^32`.
-/

/-- Right rotation of a 32-bit word. -/
def rotr32 (n x : Nat) : Nat :=
  ((x >>> n) ||| (x <<< (32 - n))) % 4294967296

def bigSigma0 (x : Nat) : Nat := rotr32 2 x ^^^ rotr32 13 x ^^^ rotr32 22 x

def bigSigma1 (x : Nat) : Nat := rotr32 6 x ^^^ rotr32 11 x ^^^ rotr32 25 x

def smallSigma0 (x : Nat) : Nat := rotr32 7 x ^^^ rotr32 18 x ^^^ (x >>> 3)

def smallSigma1 (x : Nat) : Nat := rotr32 17 x ^^^ rotr32 19 x ^^^ (x >>> 10)

/-- The 64 SHA-256 round constants. -/
def sha256K : List Nat :=
  [1116352408, 1899447441, 3049323471, 3921009573, 961987163,
   1508970993, 2453635748, 2870763221, 3624381080, 310598401,
   607225278, 1426881987, 1925078388, 2162078206, 2614888103,
   3248222580, 3835390401, 4022224774, 264347078, 604807628,
   770255983, 1249150122, 1555081692, 1996064986, 2554220882,
   2821834349, 2952996808, 3210313671, 3336571891, 3584528711,
   113926993, 338241895, 666307205, 773529912, 1294757372,
   1396182291, 1695183700, 1986661051, 2177026350, 2456956037,
   2730485921, 2820302411, 3259730800, 3345764771, 3516065817,
   3600352804, 4094571909, 275423344, 430227734, 506948616,
   659060556, 883997877, 958139571, 1322822218, 1537002063,
   1747873779, 1955562222, 2024104815, 2227730452, 2361852424,
   2428436474, 2756734187, 3204031479, 3329325298]

/-- The SHA-256 initial hash value. -/
def sha256H0 : List Nat :=
  [1779033703, 3144134277, 1013904242,
   2773480762, 1359893119, 2600822924,
   528734635, 1541459225]

/-- Group a byte list into big-endian 32-bit words. -/
def bytesToWords : List Nat → List Nat
  | b0 :: b1 :: b2 :: b3 :: rest =>
      (((b0 * 256 + b1) * 256 + b2) * 256 + b3) :: bytesToWords rest
  | _ => []

/-- Serialize 32-bit words as big-endian bytes. -/
def wordsToBytes (ws : List Nat) : List Nat :=
  (ws.map (natBE 4)).flatten

/-- Extend the 16-word block to the full 64-word message schedule
(`n` rounds of extension remain). -/
def extendSchedule : Nat → List Nat → List Nat
  | 0, w => w
  | n + 1, w =>
      let t := (smallSigma1 (w.getD (w.length - 2) 0) + w.getD (w.length - 7) 0
                + smallSigma0 (w.getD (w.length - 15) 0)
                + w.getD (w.length - 16) 0) % 4294967296
      extendSchedule n (w ++ [t])

/-- One SHA-256 compression round on the 8-word working state. -/
def sha256Round (st : List Nat) (k w : Nat) : List Nat :=
  match st with
  | [a, b, c, d, e, f, g, h] =>
      let ch := (e &&& f) ^^^ ((e ^^^ 0xffffffff) &&& g)
      let maj := (a &&& b) ^^^ (a &&& c) ^^^ (b &&& c)
      let t1 := (h + bigSigma1 e + ch + k + w) % 4294967296
      let t2 := (bigSigma0 a + maj) % 4294967296
      [(t1 + t2) % 4294967296, a, b, c, (d + t1) % 4294967296, e, f, g]
  | _ => st

/-- Compress one 64-byte block into the running 8-word hash state. -/
def sha256Compress (st : List Nat) (block : List Nat) : List Nat :=
  let ws := extendSchedule 48 (bytesToWords block)
  let st' := (sha256K.zip ws).foldl (fun s kw => sha256Round s kw.1 kw.2) st
  (st.zip st').map (fun p => (p.1 + p.2) % 4294967296)

/-- FIPS 180-4 padding: append `0x80`, zeros to 56 mod 64, then the
bit length as 8 big-endian bytes. -/
def sha256Pad (msg : List Nat) : List Nat :=
  let L := msg.length
  let zeros := (119 - L % 64) % 64
  msg ++ [0x80] ++ List.replicate zeros 0 ++ natBE 8 (8 * L)

/-- Split a list into 64-byte chunks (`fuel` bounds the recursion). -/
def chunks64 : Nat → List Nat → List (List Nat)
  | 0, _ => []
  | _, [] => []
  | fuel + 1, l => l.take 64 :: chunks64 fuel (l.drop 64)

/-- SHA-256 of a byte list. -/
def sha256 (msg : List Nat) : List Nat :=
  let padded := sha256Pad msg
  wordsToBytes ((chunks64 padded.length padded).foldl sha256Compress sha256H0)

/-- Modelled from the spec: `dsha256` from the repository's `crypto.py`
(absent from `src/`); the spec states it "returns the double-hash of the
preimage", i.e. SHA-256 applied twice. -/
def dsha256 (msg : List Nat) : List Nat :=
  sha256 (sha256 msg)

/-!
## `broadcast_transaction.py`

Constants and the body of `construct_transaction` (lines 23–160).  The
elliptic-curve key and address code lives in `crypto.py` / `address.py`
(absent from `src/`), so its outputs enter as parameters: `publicKey` is
`eckey.serialized_pubkey()`, `pubkeyHash_in` is `sendaddr.hash_addr`,
`pubkeyHash_out` is `recaddr.hash_addr`, `sign` is `eckey.sign`, and
`prevtx_id` is the byte list `bytes.fromhex(prevtx_id)` (hex-display
order).  The function body is factored into `lockingScript` (lines 84 and
93), `preimage` (lines 98–117), `prehash` (line 123), `unlockingScript`
(lines 125–136) and `txid` (line 158); `construct_transaction` threads
them in the source's order, and the byte conversions recomputed inside
the factored pieces are the same pure expressions as in the main body. -/

def SIGHASH_ALL : Nat := 0x01

def SIGHASH_FORKID : Nat := 0x40

def FORKID : Nat := 0x00

def BCH_SIGHASH_TYPE : Nat := 0x41

def TRANSACTION_VERSION_1 : Nat := 1

def SEQUENCE_NUMBER : Nat := 0xffffffff - 1

def OP_DUP : Nat := 0x76

def OP_HASH160 : Nat := 0xa9

def OP_EQUALVERIFY : Nat := 0x88

def OP_CHECKSIG : Nat := 0xac

/-- The P2PKH script expression of lines 84 and 93:
`bytes([OP_DUP]) + bytes([OP_HASH160]) + bytes([0x14]) + pubkeyHash
 + bytes([OP_EQUALVERIFY]) + bytes([OP_CHECKSIG])`. -/
def lockingScript (pubkeyHash : List Nat) : List Nat :=
  [OP_DUP] ++ [OP_HASH160] ++ [0x14] ++ pubkeyHash ++ [OP_EQUALVERIFY] ++ [OP_CHECKSIG]

/-- The BIP-143 preimage of lines 98–117. -/
def preimage (pubkeyHash_in pubkeyHash_out : List Nat) (amount locktime : Int)
    (prevtx_id : List Nat) (prevtx_index prevamount : Int) : Option (List Nat) := do
  let nVersion := natLE 4 TRANSACTION_VERSION_1
  let nHashtype := natLE 4 BCH_SIGHASH_TYPE
  let nSequence := natLE 4 SEQUENCE_NUMBER
  let nAmount ← intToBytesLE 8 amount
  let nLocktime ← intToBytesLE 4 locktime
  let prevHash := prevtx_id.reverse
  let prevIndex ← intToBytesLE 4 prevtx_index
  let prevValue ← intToBytesLE 8 prevamount
  let prevLockingScript := lockingScript pubkeyHash_in
  let lengthPrevLockingScript ← byte1 prevLockingScript.length
  let lockingScriptOut := lockingScript pubkeyHash_out
  let lengthLockingScript ← byte1 lockingScriptOut.length
  let outpoint := prevHash ++ prevIndex
  let hashPrevouts := dsha256 outpoint
  let hashSequence := dsha256 nSequence
  let hashOutputs := dsha256 (nAmount ++ lengthLockingScript ++ lockingScriptOut)
  pure (nVersion ++ hashPrevouts ++ hashSequence ++ outpoint ++
        lengthPrevLockingScript ++ prevLockingScript ++ prevValue ++ nSequence ++
        hashOutputs ++ nLocktime ++ nHashtype)

/-- Line 123: the value passed to the signing primitive,
`prehash = dsha256(preimage)`. -/
def prehash (pubkeyHash_in pubkeyHash_out : List Nat) (amount locktime : Int)
    (prevtx_id : List Nat) (prevtx_index prevamount : Int) : Option (List Nat) :=
  (preimage pubkeyHash_in pubkeyHash_out amount locktime prevtx_id prevtx_index
    prevamount).map dsha256

/-- The unlocking script of lines 125–136: a single push-length byte for
`signature + bytes([hashtype])`, that operand, then a single push-length
byte for `publicKey` and the key itself. -/
def unlockingScript (signature publicKey : List Nat) : Option (List Nat) := do
  let lengthSigandHash ← byte1 (signature.length + 1)
  let lengthPublicKey ← byte1 publicKey.length
  pure (lengthSigandHash ++ signature ++ [BCH_SIGHASH_TYPE] ++ lengthPublicKey ++ publicKey)

/-- Line 158: `txid = dsha256(rawtx)[::-1]`. -/
def txid (rawtx : List Nat) : List Nat :=
  (dsha256 rawtx).reverse

/-- `construct_transaction` (lines 23–160), returning the raw transaction
bytes and the transaction id (the source hex-encodes both on return). -/
def construct_transaction (publicKey pubkeyHash_in pubkeyHash_out : List Nat)
    (sign : List Nat → List Nat) (amount locktime : Int) (prevtx_id : List Nat)
    (prevtx_index prevamount : Int) : Option (List Nat × List Nat) := do
  let _lengthPublicKey ← byte1 publicKey.length
  let nVersion := natLE 4 TRANSACTION_VERSION_1
  let nSequence := natLE 4 SEQUENCE_NUMBER
  let nAmount ← intToBytesLE 8 amount
  let nLocktime ← intToBytesLE 4 locktime
  let prevHash := prevtx_id.reverse
  let prevIndex ← intToBytesLE 4 prevtx_index
  let nInputs := [1]
  let nOutputs := [1]
  let lockingScriptOut := lockingScript pubkeyHash_out
  let lengthLockingScript ← byte1 lockingScriptOut.length
  let ph ← prehash pubkeyHash_in pubkeyHash_out amount locktime prevtx_id
    prevtx_index prevamount
  let signature := sign ph
  let us ← unlockingScript signature publicKey
  let lengthUnlockingScript ← byte1 us.length
  let rawtx := nVersion ++ nInputs ++ prevHash ++ prevIndex ++
    lengthUnlockingScript ++ us ++ nSequence ++ nOutputs ++
    nAmount ++ lengthLockingScript ++ lockingScriptOut ++ nLocktime
  pure (rawtx, txid rawtx)

/-!
## `network.py`

`make_message` (lines 27–36) and `version_message` (lines 38–70).  The
nondeterministic inputs of `version_message` — `time.time()` and
`random.getrandbits(64)` — enter as the parameters `t` and `nonceVal`. -/

def BTC_MAINNET_NETWORK_MAGIC : Nat := 0xd9b4bef9

def BTC_TESTNET_NETWORK_MAGIC : Nat := 0x0709110b

def BTC_REGTEST_NETWORK_MAGIC : Nat := 0xdab5bffa

def MAINNET_NETWORK_MAGIC : Nat := 0xe8f3e1e3

def TESTNET_NETWORK_MAGIC : Nat := 0xf4f3e5f4

def REGTEST_NETWORK_MAGIC : Nat := 0xfabfb5da

def DEFAULT_PORT : Nat := 8333

def PROTOCOL_VERSION : Nat := 70015

def SPV_SERVICES : Nat := 0

def RELAY : Bool := false

def DEFAULT_IPV6_ADDRESS : Nat := 0x00000000000000000000ffff7f000001

/-- `make_message(cmd, payload)` (lines 27–36); `cmd` is the ASCII byte
list `cmd.encode('ascii')`, and `(12 - len(cmdb)) * b"\x00"` is empty for
a command longer than 12 bytes, exactly as Nat subtraction gives here. -/
def make_message (cmd payload : List Nat) : Option (List Nat) := do
  let magic := natLE 4 MAINNET_NETWORK_MAGIC
  let command := cmd ++ List.replicate (12 - cmd.length) 0
  let length ← intToBytesLE 4 (payload.length : Int)
  let checksum := (dsha256 payload).take 4
  pure (magic ++ command ++ length ++ checksum ++ payload)

/-- `version_message(last_block)` (lines 38–70), with the wall clock `t`
and the 64-bit random nonce `nonceVal` as parameters. -/
def version_message (t nonceVal : Nat) (last_block : Int) : Option (List Nat) := do
  let version := natLE 4 PROTOCOL_VERSION
  let services := natLE 8 SPV_SERVICES
  let timestamp ← intToBytesLE 8 (t : Int)
  let addr_recv := natLE 8 SPV_SERVICES ++ natBE 16 DEFAULT_IPV6_ADDRESS ++
    natBE 2 DEFAULT_PORT
  let addr_trans := natLE 8 SPV_SERVICES ++ natBE 16 DEFAULT_IPV6_ADDRESS ++
    natBE 2 DEFAULT_PORT
  let nonce ← intToBytesLE 8 (nonceVal : Int)
  let user_agent_bytes := [0x00]
  let start_height ← intToBytesLE 4 last_block
  let relay := [if RELAY then 1 else 0]
  pure (version ++ services ++ timestamp ++ addr_recv ++ addr_trans ++ nonce ++
        user_agent_bytes ++ start_height ++ relay)

/-!
## Helper lemmas
-/

theorem natLE_length (k n : Nat) : (natLE k n).length = k := by
  simp [natLE]

theorem natBE_length (k n : Nat) : (natBE k n).length = k := by
  simp [natBE]

theorem intToBytesLE_of_range (k : Nat) (x : Int) (h0 : 0 ≤ x)
    (h1 : x < (2 : Int) ^ (8 * k)) :
    intToBytesLE k x = some (natLE k x.toNat) := by
  simp [intToBytesLE, h0, h1]

theorem byte1_of_lt (n : Nat) (h : n < 256) : byte1 n = some [n] := by
  simp [byte1, h]

theorem byte1_of_ge (n : Nat) (h : 256 ≤ n) : byte1 n = none := by
  simp only [byte1, if_neg (by omega : ¬ n < 256)]

theorem lockingScript_def (pubkeyHash : List Nat) :
    lockingScript pubkeyHash = [0x76, 0xa9, 0x14] ++ pubkeyHash ++ [0x88, 0xac] := by
  simp [lockingScript, OP_DUP, OP_HASH160, OP_EQUALVERIFY, OP_CHECKSIG]

theorem lockingScript_length (pubkeyHash : List Nat) :
    (lockingScript pubkeyHash).length = pubkeyHash.length + 5 := by
  simp [lockingScript]

theorem sha256Round_length (st : List Nat) (k w : Nat) (h : st.length = 8) :
    (sha256Round st k w).length = 8 := by
  rcases st with _ | ⟨a, _ | ⟨b, _ | ⟨c, _ | ⟨d, _ | ⟨e, _ | ⟨f, _ | ⟨g, _ | ⟨hh, _ | ⟨i, t⟩⟩⟩⟩⟩⟩⟩⟩⟩ <;>
    simp_all [sha256Round]

theorem foldl_sha256Round_length (l : List (Nat × Nat)) (st : List Nat)
    (h : st.length = 8) :
    (l.foldl (fun s kw => sha256Round s kw.1 kw.2) st).length = 8 := by
  induction l generalizing st with
  | nil => simpa using h
  | cons x xs ih => exact ih _ (sha256Round_length _ _ _ h)

theorem sha256Compress_length (st block : List Nat) (h : st.length = 8) :
    (sha256Compress st block).length = 8 := by
  simp [sha256Compress, foldl_sha256Round_length _ _ h, h]

theorem foldl_sha256Compress_length (blocks : List (List Nat)) (st : List Nat)
    (h : st.length = 8) :
    (blocks.foldl sha256Compress st).length = 8 := by
  induction blocks generalizing st with
  | nil => simpa using h
  | cons b bs ih => exact ih _ (sha256Compress_length _ _ h)

theorem wordsToBytes_length (ws : List Nat) :
    (wordsToBytes ws).length = 4 * ws.length := by
  induction ws with
  | nil => rfl
  | cons w t ih =>
      simp only [wordsToBytes, List.map_cons, List.flatten_cons, List.length_append,
        natBE_length, List.length_cons] at ih ⊢
      omega

theorem sha256_length (msg : List Nat) : (sha256 msg).length = 32 := by
  simp [sha256, wordsToBytes_length, foldl_sha256Compress_length _ _ (by rfl : sha256H0.length = 8)]

theorem dsha256_length (msg : List Nat) : (dsha256 msg).length = 32 := by
  simp [dsha256, sha256_length]

/-- FIPS 180-4 test vector: SHA-256 of the empty message. -/
theorem sha256_nil_vector :
    sha256 [] = [0xe3, 0xb0, 0xc4, 0x42, 0x98, 0xfc, 0x1c, 0x14, 0x9a, 0xfb,
      0xf4, 0xc8, 0x99, 0x6f, 0xb9, 0x24, 0x27, 0xae, 0x41, 0xe4, 0x64, 0x9b,
      0x93, 0x4c, 0xa4, 0x95, 0x99, 0x1b, 0x78, 0x52, 0xb8, 0x55] := by
  decide

/-- FIPS 180-4 test vector: SHA-256 of `"abc"`. -/
theorem sha256_abc_vector :
    sha256 [0x61, 0x62, 0x63] = [0xba, 0x78, 0x16, 0xbf, 0x8f, 0x01, 0xcf,
      0xea, 0x41, 0x41, 0x40, 0xde, 0x5d, 0xae, 0x22, 0x23, 0xb0, 0x03, 0x61,
      0xa3, 0x96, 0x17, 0x7a, 0x9c, 0xb4, 0x10, 0xff, 0x61, 0xf2, 0x00, 0x15,
      0xad] := by
  decide

/-- The double hash and the single hash really differ (checked on the
empty message). -/
theorem dsha256_ne_sha256_nil : dsha256 [] ≠ sha256 [] := by
  decide

theorem length_intToBytesLE_of_lt (l : List Nat) (h : l.length < 2 ^ 32) :
    intToBytesLE 4 (l.length : Int) = some (natLE 4 l.length) := by
  rw [intToBytesLE_of_range 4 _ (by positivity) (by exact_mod_cast h)]
  simp

/-!
## Claim theorems
-/

/-- C5: for a command of at most 12 ASCII bytes, the framed wire message is
the 4-byte magic, the command zero-padded to 12 bytes, the 4-byte
little-endian payload length, the first 4 bytes of the double SHA-256 of the
payload, then the payload; its length is `24 + len(payload)` and bytes
16–19 encode the payload length in little-endian. -/
theorem make_message_framing (cmd payload : List Nat)
    (hc : cmd.length ≤ 12) (hp : payload.length < 2 ^ 32) :
    make_message cmd payload =
      some (natLE 4 MAINNET_NETWORK_MAGIC ++ (cmd ++ List.replicate (12 - cmd.length) 0) ++
        natLE 4 payload.length ++ (dsha256 payload).take 4 ++ payload) ∧
    ∀ m, make_message cmd payload = some m →
      m.length = 24 + payload.length ∧ (m.drop 16).take 4 = natLE 4 payload.length := by
  have key : make_message cmd payload =
      some (natLE 4 MAINNET_NETWORK_MAGIC ++ (cmd ++ List.replicate (12 - cmd.length) 0) ++
        natLE 4 payload.length ++ (dsha256 payload).take 4 ++ payload) := by
    simp [make_message, length_intToBytesLE_of_lt payload hp]
  refine ⟨key, fun m hm => ?_⟩
  rw [key, Option.some.injEq] at hm
  subst hm
  constructor
  · simp [natLE_length, dsha256_length]
    omega
  · have h16 : (natLE 4 MAINNET_NETWORK_MAGIC ++
        (cmd ++ List.replicate (12 - cmd.length) 0)).length = 16 := by
      simp [natLE_length]
      omega
    have regroup : natLE 4 MAINNET_NETWORK_MAGIC ++ (cmd ++ List.replicate (12 - cmd.length) 0) ++
        natLE 4 payload.length ++ (dsha256 payload).take 4 ++ payload =
        (natLE 4 MAINNET_NETWORK_MAGIC ++ (cmd ++ List.replicate (12 - cmd.length) 0)) ++
        (natLE 4 payload.length ++ ((dsha256 payload).take 4 ++ payload)) := by
      simp only [List.append_assoc]
    rw [regroup, List.drop_left' h16, List.take_left' (natLE_length 4 payload.length)]

/-- C5 witness: the framing theorem applied to the command `"version"` and
the payload `[1, 2, 3]`. -/
theorem make_message_framing_witness :
    ([118, 101, 114, 115, 105, 111, 110] : List Nat).length ≤ 12 ∧
    ([1, 2, 3] : List Nat).length < 2 ^ 32 ∧
    (make_message [118, 101, 114, 115, 105, 111, 110] [1, 2, 3] =
      some (natLE 4 MAINNET_NETWORK_MAGIC ++
        ([118, 101, 114, 115, 105, 111, 110] ++ List.replicate 5 0) ++
        natLE 4 3 ++ (dsha256 [1, 2, 3]).take 4 ++ [1, 2, 3]) ∧
    ∀ m, make_message [118, 101, 114, 115, 105, 111, 110] [1, 2, 3] = some m →
      m.length = 24 + 3 ∧ (m.drop 16).take 4 = natLE 4 3) :=
  ⟨by decide, by decide,
    make_message_framing [118, 101, 114, 115, 105, 111, 110] [1, 2, 3] (by decide) (by decide)⟩

/-- C10: the first 4 bytes of every framed message are the hardcoded BCH
mainnet magic `0xe8f3e1e3` serialized little-endian, `e3 e1 f3 e8`. -/
theorem make_message_magic_hardcoded (cmd payload : List Nat)
    (hc : cmd.length ≤ 12) (hp : payload.length < 2 ^ 32) :
    ∃ m, make_message cmd payload = some m ∧ m.take 4 = [0xe3, 0xe1, 0xf3, 0xe8] := by
  refine ⟨natLE 4 MAINNET_NETWORK_MAGIC ++ ((cmd ++ List.replicate (12 - cmd.length) 0) ++
    (natLE 4 payload.length ++ ((dsha256 payload).take 4 ++ payload))), ?_, ?_⟩
  · have := length_intToBytesLE_of_lt payload hp
    simp [make_message, this]
  · rw [List.take_left' (natLE_length 4 MAINNET_NETWORK_MAGIC)]
    decide

/-- C10 witness: the magic theorem applied to the command `"ping"` and an
empty payload. -/
theorem make_message_magic_hardcoded_witness :
    ([112, 105, 110, 103] : List Nat).length ≤ 12 ∧
    ([] : List Nat).length < 2 ^ 32 ∧
    ∃ m, make_message [112, 105, 110, 103] [] = some m ∧
      m.take 4 = [0xe3, 0xe1, 0xf3, 0xe8] :=
  ⟨by decide, by decide, make_message_magic_hardcoded [112, 105, 110, 103] [] (by decide) (by decide)⟩

/-- C6: for every block height in `[0, 2^32)` (with the wall clock and the
64-bit nonce as environment inputs), the version payload is exactly the
86-byte layout: 4-byte LE protocol version, 8-byte LE services, 8-byte LE
timestamp, two identical 26-byte address records (8-byte LE services,
16-byte BE IPv6-mapped loopback, 2-byte BE port), 8-byte nonce, one zero
byte for the empty user agent, 4-byte LE start height, one relay byte. -/
theorem version_message_layout (t nonceVal : Nat) (last_block : Int)
    (ht : t < 2 ^ 64) (hn : nonceVal < 2 ^ 64)
    (hb : 0 ≤ last_block ∧ last_block < 2 ^ 32) :
    version_message t nonceVal last_block =
      some (natLE 4 70015 ++ natLE 8 0 ++ natLE 8 t ++
        (natLE 8 0 ++ natBE 16 DEFAULT_IPV6_ADDRESS ++ natBE 2 8333) ++
        (natLE 8 0 ++ natBE 16 DEFAULT_IPV6_ADDRESS ++ natBE 2 8333) ++
        natLE 8 nonceVal ++ [0x00] ++ natLE 4 last_block.toNat ++ [0x00]) ∧
    natBE 16 DEFAULT_IPV6_ADDRESS =
      [0, 0, 0, 0, 0, 0, 0, 0, 0, 0, 0xff, 0xff, 0x7f, 0, 0, 1] ∧
    natBE 2 8333 = [0x20, 0x8d] ∧
    ∀ m, version_message t nonceVal last_block = some m → m.length = 86 := by
  have hts : intToBytesLE 8 (t : Int) = some (natLE 8 t) := by
    rw [intToBytesLE_of_range 8 _ (by positivity) (by exact_mod_cast ht)]
    simp
  have hns : intToBytesLE 8 (nonceVal : Int) = some (natLE 8 nonceVal) := by
    rw [intToBytesLE_of_range 8 _ (by positivity) (by exact_mod_cast hn)]
    simp
  have hbs : intToBytesLE 4 last_block = some (natLE 4 last_block.toNat) :=
    intToBytesLE_of_range 4 _ hb.1 hb.2
  have key : version_message t nonceVal last_block =
      some (natLE 4 70015 ++ natLE 8 0 ++ natLE 8 t ++
        (natLE 8 0 ++ natBE 16 DEFAULT_IPV6_ADDRESS ++ natBE 2 8333) ++
        (natLE 8 0 ++ natBE 16 DEFAULT_IPV6_ADDRESS ++ natBE 2 8333) ++
        natLE 8 nonceVal ++ [0x00] ++ natLE 4 last_block.toNat ++ [0x00]) := by
    simp [version_message, hts, hns, hbs, PROTOCOL_VERSION, SPV_SERVICES, DEFAULT_PORT, RELAY]
  refine ⟨key, by decide, by decide, fun m hm => ?_⟩
  rw [key, Option.some.injEq] at hm
  subst hm
  simp [natLE_length, natBE_length]

/-- C6 witness: the layout theorem applied at wall clock 0, nonce 0 and
block height 0. -/
theorem version_message_layout_witness :
    (0 : Nat) < 2 ^ 64 ∧ (0 : Nat) < 2 ^ 64 ∧ ((0 : Int) ≤ 0 ∧ (0 : Int) < 2 ^ 32) ∧
    (version_message 0 0 0 =
      some (natLE 4 70015 ++ natLE 8 0 ++ natLE 8 0 ++
        (natLE 8 0 ++ natBE 16 DEFAULT_IPV6_ADDRESS ++ natBE 2 8333) ++
        (natLE 8 0 ++ natBE 16 DEFAULT_IPV6_ADDRESS ++ natBE 2 8333) ++
        natLE 8 0 ++ [0x00] ++ natLE 4 (0 : Int).toNat ++ [0x00]) ∧
    natBE 16 DEFAULT_IPV6_ADDRESS =
      [0, 0, 0, 0, 0, 0, 0, 0, 0, 0, 0xff, 0xff, 0x7f, 0, 0, 1] ∧
    natBE 2 8333 = [0x20, 0x8d] ∧
    ∀ m, version_message 0 0 0 = some m → m.length = 86) :=
  ⟨by decide, by decide, by decide,
    version_message_layout 0 0 0 (by decide) (by decide) ⟨by decide, by decide⟩⟩

/-- C9 counterexample: a 13-byte command (13 copies of ASCII `a`) is not
rejected — `make_message` still returns a wire message. -/
theorem make_message_no_length_check :
    (make_message (List.replicate 13 97) []).isSome = true := by
  have h : intToBytesLE 4 (0 : Int) = some (natLE 4 0) := by
    norm_num [intToBytesLE]
  simp [make_message, h]

/-- C9 amended: commands longer than 12 ASCII bytes are not rejected (no
`CommandTooLong` failure exists): the padding `(12 - len(cmd)) * b"\x00"`
is empty, the command field is emitted at its full length, and the frame
is produced with length `12 + len(cmd) + len(payload)`. -/
theorem make_message_long_command_not_rejected (cmd payload : List Nat)
    (hc : 12 < cmd.length) (hp : payload.length < 2 ^ 32) :
    make_message cmd payload =
      some (natLE 4 MAINNET_NETWORK_MAGIC ++ cmd ++ natLE 4 payload.length ++
        (dsha256 payload).take 4 ++ payload) ∧
    ∀ m, make_message cmd payload = some m →
      m.length = 12 + cmd.length + payload.length := by
  have hpad : List.replicate (12 - cmd.length) (0 : Nat) = [] := by
    rw [Nat.sub_eq_zero_of_le (Nat.le_of_lt hc)]
    rfl
  have key : make_message cmd payload =
      some (natLE 4 MAINNET_NETWORK_MAGIC ++ cmd ++ natLE 4 payload.length ++
        (dsha256 payload).take 4 ++ payload) := by
    simp [make_message, length_intToBytesLE_of_lt payload hp, hpad]
  refine ⟨key, fun m hm => ?_⟩
  rw [key, Option.some.injEq] at hm
  subst hm
  simp [natLE_length, dsha256_length]
  omega

/-- C9 amended witness: the no-rejection theorem applied to a 13-byte
command and an empty payload. -/
theorem make_message_long_command_not_rejected_witness :
    12 < (List.replicate 13 97 : List Nat).length ∧
    ([] : List Nat).length < 2 ^ 32 ∧
    (make_message (List.replicate 13 97) [] =
      some (natLE 4 MAINNET_NETWORK_MAGIC ++ List.replicate 13 97 ++ natLE 4 0 ++
        (dsha256 []).take 4 ++ []) ∧
    ∀ m, make_message (List.replicate 13 97) [] = some m →
      m.length = 12 + 13 + 0) :=
  ⟨by decide, by decide,
    make_message_long_command_not_rejected (List.replicate 13 97) [] (by decide) (by decide)⟩

/-- C4: the transaction identifier is the byte-reversal of the double
SHA-256 of exactly the serialized bytes, and reversing it again restores
the wire-order hash — display order and wire order are mutual inverses. -/
theorem txid_is_reversed_dsha256 (raw : List Nat) :
    txid raw = (dsha256 raw).reverse ∧ (txid raw).reverse = dsha256 raw := by
  exact ⟨rfl, by simp [txid]⟩

/-- C3 counterexample: with a 19-byte public-key hash no failure occurs:
the script `76 a9 14 ‖ H ‖ 88 ac` (24 bytes, its hardcoded `0x14` push
byte not matching the 19-byte hash) is still produced, and
`construct_transaction` still returns a transaction. -/
theorem lockingScript_no_length_check :
    lockingScript (List.replicate 19 3) =
      [0x76, 0xa9, 0x14] ++ List.replicate 19 3 ++ [0x88, 0xac] ∧
    (lockingScript (List.replicate 19 3)).length = 24 ∧
    (construct_transaction (List.replicate 33 2) (List.replicate 20 1)
      (List.replicate 19 3) (fun _ => List.replicate 70 4) 29066 522542
      (List.replicate 32 5) 0 29316).isSome = true := by
  refine ⟨by decide, by decide, ?_⟩
  norm_num [construct_transaction, prehash, preimage, unlockingScript, lockingScript,
    txid, intToBytesLE, byte1, natLE]

/-- C3 amended: for a 20-byte public-key hash the locking script is exactly
the 25 bytes `76 a9 14 ‖ H ‖ 88 ac`; for any other hash length no
`MalformedScript` failure occurs — the same script shape is produced with
the hardcoded `0x14` push byte. -/
theorem lockingScript_canonical (H : List Nat) :
    lockingScript H = [0x76, 0xa9, 0x14] ++ H ++ [0x88, 0xac] ∧
    (H.length = 20 → (lockingScript H).length = 25) := by
  refine ⟨lockingScript_def H, fun h => ?_⟩
  simp [lockingScript_length, h]

/-- C3 amended witness: the canonical-script theorem applied to a 20-byte
hash. -/
theorem lockingScript_canonical_witness :
    (lockingScript (List.replicate 20 7) =
      [0x76, 0xa9, 0x14] ++ List.replicate 20 7 ++ [0x88, 0xac]) ∧
    (List.replicate 20 7 : List Nat).length = 20 ∧
    (lockingScript (List.replicate 20 7)).length = 25 :=
  ⟨(lockingScript_canonical (List.replicate 20 7)).1, by decide,
    (lockingScript_canonical (List.replicate 20 7)).2 (by decide)⟩

/-- C7: a pushed script operand (the DER signature with its appended
sighash byte, or the serialized public key) of exactly 255 bytes is
accepted and prefixed with the valid single push-length byte 255; an
operand of 256 bytes makes the unlocking-script construction fail (the
single-byte conversion rejects 256). -/
theorem unlockingScript_operand_boundary (signature publicKey : List Nat) :
    (signature.length + 1 = 255 ∧ publicKey.length = 255 →
      unlockingScript signature publicKey =
        some ([255] ++ signature ++ [0x41] ++ [255] ++ publicKey)) ∧
    (signature.length + 1 = 256 ∨ publicKey.length = 256 →
      unlockingScript signature publicKey = none) := by
  constructor
  · rintro ⟨hs, hp⟩
    rw [unlockingScript, byte1_of_lt _ (by omega), byte1_of_lt _ (by omega), hs, hp]
    simp [BCH_SIGHASH_TYPE]
  · rintro (hs | hp)
    · rw [unlockingScript, byte1_of_ge _ (by omega)]
      rfl
    · rcases Nat.lt_or_ge (signature.length + 1) 256 with h | h
      · rw [unlockingScript, byte1_of_lt _ h, byte1_of_ge _ (by omega)]
        rfl
      · rw [unlockingScript, byte1_of_ge _ h]
        rfl

/-- C7 witness: the boundary theorem applied to a 254-byte signature (a
255-byte pushed operand with its sighash byte), a 255-byte public key, and
a 255-byte signature (a 256-byte pushed operand). -/
theorem unlockingScript_operand_boundary_witness :
    ((List.replicate 254 2 : List Nat).length + 1 = 255 ∧
      (List.replicate 255 3 : List Nat).length = 255) ∧
    unlockingScript (List.replicate 254 2) (List.replicate 255 3) =
      some ([255] ++ List.replicate 254 2 ++ [0x41] ++ [255] ++ List.replicate 255 3) ∧
    unlockingScript (List.replicate 255 2) (List.replicate 255 3) = none :=
  ⟨⟨by decide, by decide⟩,
    (unlockingScript_operand_boundary (List.replicate 254 2) (List.replicate 255 3)).1
      ⟨by decide, by decide⟩,
    (unlockingScript_operand_boundary (List.replicate 255 2) (List.replicate 255 3)).2
      (Or.inl (by decide))⟩

theorem preimage_eq (pubkeyHash_in pubkeyHash_out : List Nat) (amount locktime : Int)
    (prevtx_id : List Nat) (prevtx_index prevamount : Int)
    (hA : 0 ≤ amount ∧ amount < (2 : Int) ^ 64)
    (hL : 0 ≤ locktime ∧ locktime < (2 : Int) ^ 32)
    (hI : 0 ≤ prevtx_index ∧ prevtx_index < (2 : Int) ^ 32)
    (hP : 0 ≤ prevamount ∧ prevamount < (2 : Int) ^ 64)
    (hin : pubkeyHash_in.length = 20) (hout : pubkeyHash_out.length = 20) :
    preimage pubkeyHash_in pubkeyHash_out amount locktime prevtx_id prevtx_index
        prevamount =
      some ([0x01, 0x00, 0x00, 0x00] ++
        dsha256 (prevtx_id.reverse ++ natLE 4 prevtx_index.toNat) ++
        dsha256 [0xfe, 0xff, 0xff, 0xff] ++
        (prevtx_id.reverse ++ natLE 4 prevtx_index.toNat) ++
        [0x19] ++ ([0x76, 0xa9, 0x14] ++ pubkeyHash_in ++ [0x88, 0xac]) ++
        natLE 8 prevamount.toNat ++ [0xfe, 0xff, 0xff, 0xff] ++
        dsha256 (natLE 8 amount.toNat ++ [0x19] ++
          ([0x76, 0xa9, 0x14] ++ pubkeyHash_out ++ [0x88, 0xac])) ++
        natLE 4 locktime.toNat ++ [0x41, 0x00, 0x00, 0x00]) := by
  have hv : natLE 4 TRANSACTION_VERSION_1 = [0x01, 0x00, 0x00, 0x00] := by decide
  have hsq : natLE 4 SEQUENCE_NUMBER = [0xfe, 0xff, 0xff, 0xff] := by decide
  have hht : natLE 4 BCH_SIGHASH_TYPE = [0x41, 0x00, 0x00, 0x00] := by decide
  have ha := intToBytesLE_of_range 8 amount hA.1 hA.2
  have hl := intToBytesLE_of_range 4 locktime hL.1 hL.2
  have hi := intToBytesLE_of_range 4 prevtx_index hI.1 hI.2
  have hp := intToBytesLE_of_range 8 prevamount hP.1 hP.2
  simp [preimage, hv, hsq, hht, ha, hl, hi, hp, lockingScript_def, byte1, hin, hout]

/-- C1: the 32-byte value passed to the signing primitive is the double
SHA-256 — i.e. SHA-256 applied twice, never once — of the preimage built as
the concatenation, in order, of: 4-byte LE version; double SHA-256 of the
single outpoint (reversed prev-txid bytes then 4-byte LE index); double
SHA-256 of the 4-byte LE sequence number; the outpoint verbatim; a length
byte then the previous P2PKH locking script; the 8-byte LE previous
amount; the 4-byte LE sequence number; double SHA-256 of the serialized
single output; 4-byte LE locktime; and the 4-byte LE sighash type. -/
theorem prehash_is_dsha256_of_preimage (pubkeyHash_in pubkeyHash_out : List Nat)
    (amount locktime : Int) (prevtx_id : List Nat) (prevtx_index prevamount : Int)
    (hA : 0 ≤ amount ∧ amount < (2 : Int) ^ 64)
    (hL : 0 ≤ locktime ∧ locktime < (2 : Int) ^ 32)
    (hI : 0 ≤ prevtx_index ∧ prevtx_index < (2 : Int) ^ 32)
    (hP : 0 ≤ prevamount ∧ prevamount < (2 : Int) ^ 64)
    (hin : pubkeyHash_in.length = 20) (hout : pubkeyHash_out.length = 20) :
    prehash pubkeyHash_in pubkeyHash_out amount locktime prevtx_id prevtx_index
        prevamount =
      some (sha256 (sha256 ([0x01, 0x00, 0x00, 0x00] ++
        dsha256 (prevtx_id.reverse ++ natLE 4 prevtx_index.toNat) ++
        dsha256 [0xfe, 0xff, 0xff, 0xff] ++
        (prevtx_id.reverse ++ natLE 4 prevtx_index.toNat) ++
        [0x19] ++ ([0x76, 0xa9, 0x14] ++ pubkeyHash_in ++ [0x88, 0xac]) ++
        natLE 8 prevamount.toNat ++ [0xfe, 0xff, 0xff, 0xff] ++
        dsha256 (natLE 8 amount.toNat ++ [0x19] ++
          ([0x76, 0xa9, 0x14] ++ pubkeyHash_out ++ [0x88, 0xac])) ++
        natLE 4 locktime.toNat ++ [0x41, 0x00, 0x00, 0x00]))) ∧
    ∀ ph, prehash pubkeyHash_in pubkeyHash_out amount locktime prevtx_id prevtx_index
        prevamount = some ph → ph.length = 32 := by
  have key := preimage_eq pubkeyHash_in pubkeyHash_out amount locktime prevtx_id
    prevtx_index prevamount hA hL hI hP hin hout
  have main : prehash pubkeyHash_in pubkeyHash_out amount locktime prevtx_id
      prevtx_index prevamount =
      some (dsha256 ([0x01, 0x00, 0x00, 0x00] ++
        dsha256 (prevtx_id.reverse ++ natLE 4 prevtx_index.toNat) ++
        dsha256 [0xfe, 0xff, 0xff, 0xff] ++
        (prevtx_id.reverse ++ natLE 4 prevtx_index.toNat) ++
        [0x19] ++ ([0x76, 0xa9, 0x14] ++ pubkeyHash_in ++ [0x88, 0xac]) ++
        natLE 8 prevamount.toNat ++ [0xfe, 0xff, 0xff, 0xff] ++
        dsha256 (natLE 8 amount.toNat ++ [0x19] ++
          ([0x76, 0xa9, 0x14] ++ pubkeyHash_out ++ [0x88, 0xac])) ++
        natLE 4 locktime.toNat ++ [0x41, 0x00, 0x00, 0x00])) := by
    simp [prehash, key]
  refine ⟨main, fun ph hph => ?_⟩
  rw [main, Option.some.injEq] at hph
  subst hph
  exact dsha256_length _

/-- C1 witness: the preimage-digest theorem applied at the reference
inputs of the source's `__main__` example (with placeholder hashes). -/
theorem prehash_is_dsha256_of_preimage_witness :
    ((0 : Int) ≤ 29066 ∧ (29066 : Int) < 2 ^ 64) ∧
    ((0 : Int) ≤ 522542 ∧ (522542 : Int) < 2 ^ 32) ∧
    ((0 : Int) ≤ 0 ∧ (0 : Int) < 2 ^ 32) ∧
    ((0 : Int) ≤ 29316 ∧ (29316 : Int) < 2 ^ 64) ∧
    (List.replicate 20 1 : List Nat).length = 20 ∧
    (List.replicate 20 3 : List Nat).length = 20 ∧
    (prehash (List.replicate 20 1) (List.replicate 20 3) 29066 522542
        (List.replicate 32 5) 0 29316 =
      some (sha256 (sha256 ([0x01, 0x00, 0x00, 0x00] ++
        dsha256 ((List.replicate 32 5).reverse ++ natLE 4 (0 : Int).toNat) ++
        dsha256 [0xfe, 0xff, 0xff, 0xff] ++
        ((List.replicate 32 5).reverse ++ natLE 4 (0 : Int).toNat) ++
        [0x19] ++ ([0x76, 0xa9, 0x14] ++ List.replicate 20 1 ++ [0x88, 0xac]) ++
        natLE 8 (29316 : Int).toNat ++ [0xfe, 0xff, 0xff, 0xff] ++
        dsha256 (natLE 8 (29066 : Int).toNat ++ [0x19] ++
          ([0x76, 0xa9, 0x14] ++ List.replicate 20 3 ++ [0x88, 0xac])) ++
        natLE 4 (522542 : Int).toNat ++ [0x41, 0x00, 0x00, 0x00]))) ∧
    ∀ ph, prehash (List.replicate 20 1) (List.replicate 20 3) 29066 522542
        (List.replicate 32 5) 0 29316 = some ph → ph.length = 32) :=
  ⟨⟨by decide, by decide⟩, ⟨by decide, by decide⟩, ⟨by decide, by decide⟩,
    ⟨by decide, by decide⟩, by decide, by decide,
    prehash_is_dsha256_of_preimage (List.replicate 20 1) (List.replicate 20 3)
      29066 522542 (List.replicate 32 5) 0 29316 ⟨by decide, by decide⟩
      ⟨by decide, by decide⟩ ⟨by decide, by decide⟩ ⟨by decide, by decide⟩
      (by decide) (by decide)⟩

theorem unlockingScript_eq (sig pk : List Nat) (h1 : sig.length + 1 < 256)
    (h2 : pk.length < 256) :
    unlockingScript sig pk =
      some ([sig.length + 1] ++ sig ++ [0x41] ++ [pk.length] ++ pk) := by
  rw [unlockingScript, byte1_of_lt _ h1, byte1_of_lt _ h2]
  simp [BCH_SIGHASH_TYPE]

theorem unlockingScript_value_length (sig pk : List Nat) :
    ([sig.length + 1] ++ sig ++ [0x41] ++ [pk.length] ++ pk).length =
      sig.length + pk.length + 3 := by
  simp only [List.length_append, List.length_cons, List.length_nil]
  omega

/-- Under the side conditions that make every Python byte conversion
succeed, `construct_transaction` returns the fully explicit wire
serialization together with its transaction id. -/
theorem construct_transaction_success (publicKey pubkeyHash_in pubkeyHash_out : List Nat)
    (sign : List Nat → List Nat) (amount locktime : Int) (prevtx_id : List Nat)
    (prevtx_index prevamount : Int)
    (hA : 0 ≤ amount ∧ amount < (2 : Int) ^ 64)
    (hL : 0 ≤ locktime ∧ locktime < (2 : Int) ^ 32)
    (hI : 0 ≤ prevtx_index ∧ prevtx_index < (2 : Int) ^ 32)
    (hP : 0 ≤ prevamount ∧ prevamount < (2 : Int) ^ 64)
    (hin : pubkeyHash_in.length = 20) (hout : pubkeyHash_out.length = 20)
    (hs : ∀ m, (sign m).length + publicKey.length + 3 < 256) :
    ∃ us, unlockingScript (sign (dsha256 ([0x01, 0x00, 0x00, 0x00] ++
        dsha256 (prevtx_id.reverse ++ natLE 4 prevtx_index.toNat) ++
        dsha256 [0xfe, 0xff, 0xff, 0xff] ++
        (prevtx_id.reverse ++ natLE 4 prevtx_index.toNat) ++
        [0x19] ++ ([0x76, 0xa9, 0x14] ++ pubkeyHash_in ++ [0x88, 0xac]) ++
        natLE 8 prevamount.toNat ++ [0xfe, 0xff, 0xff, 0xff] ++
        dsha256 (natLE 8 amount.toNat ++ [0x19] ++
          ([0x76, 0xa9, 0x14] ++ pubkeyHash_out ++ [0x88, 0xac])) ++
        natLE 4 locktime.toNat ++ [0x41, 0x00, 0x00, 0x00]))) publicKey = some us ∧
      construct_transaction publicKey pubkeyHash_in pubkeyHash_out sign amount
          locktime prevtx_id prevtx_index prevamount =
        some ([0x01, 0x00, 0x00, 0x00] ++ [0x01] ++ prevtx_id.reverse ++
            natLE 4 prevtx_index.toNat ++ [us.length] ++ us ++
            [0xfe, 0xff, 0xff, 0xff] ++ [0x01] ++ natLE 8 amount.toNat ++ [0x19] ++
            ([0x76, 0xa9, 0x14] ++ pubkeyHash_out ++ [0x88, 0xac]) ++
            natLE 4 locktime.toNat,
          txid ([0x01, 0x00, 0x00, 0x00] ++ [0x01] ++ prevtx_id.reverse ++
            natLE 4 prevtx_index.toNat ++ [us.length] ++ us ++
            [0xfe, 0xff, 0xff, 0xff] ++ [0x01] ++ natLE 8 amount.toNat ++ [0x19] ++
            ([0x76, 0xa9, 0x14] ++ pubkeyHash_out ++ [0x88, 0xac]) ++
            natLE 4 locktime.toNat)) := by
  have key := preimage_eq pubkeyHash_in pubkeyHash_out amount locktime prevtx_id
    prevtx_index prevamount hA hL hI hP hin hout
  set pre := ([0x01, 0x00, 0x00, 0x00] ++
    dsha256 (prevtx_id.reverse ++ natLE 4 prevtx_index.toNat) ++
    dsha256 [0xfe, 0xff, 0xff, 0xff] ++
    (prevtx_id.reverse ++ natLE 4 prevtx_index.toNat) ++
    [0x19] ++ ([0x76, 0xa9, 0x14] ++ pubkeyHash_in ++ [0x88, 0xac]) ++
    natLE 8 prevamount.toNat ++ [0xfe, 0xff, 0xff, 0xff] ++
    dsha256 (natLE 8 amount.toNat ++ [0x19] ++
      ([0x76, 0xa9, 0x14] ++ pubkeyHash_out ++ [0x88, 0xac])) ++
    natLE 4 locktime.toNat ++ [0x41, 0x00, 0x00, 0x00] : List Nat) with hpredef
  have hpre : prehash pubkeyHash_in pubkeyHash_out amount locktime prevtx_id
      prevtx_index prevamount = some (dsha256 pre) := by
    rw [prehash, key]
    rfl
  have hsb := hs (dsha256 pre)
  have hbpk : byte1 publicKey.length = some [publicKey.length] :=
    byte1_of_lt _ (by omega)
  have hus := unlockingScript_eq (sign (dsha256 pre)) publicKey (by omega) (by omega)
  have huslen : ([(sign (dsha256 pre)).length + 1] ++ sign (dsha256 pre) ++ [0x41] ++
      [publicKey.length] ++ publicKey).length < 256 := by
    rw [unlockingScript_value_length]
    omega
  have hbus := byte1_of_lt _ huslen
  have hblout : byte1 (lockingScript pubkeyHash_out).length = some [0x19] := by
    rw [lockingScript_length, hout]
    decide
  have ha := intToBytesLE_of_range 8 amount hA.1 hA.2
  have hl := intToBytesLE_of_range 4 locktime hL.1 hL.2
  have hi := intToBytesLE_of_range 4 prevtx_index hI.1 hI.2
  have hv : natLE 4 TRANSACTION_VERSION_1 = [0x01, 0x00, 0x00, 0x00] := by decide
  have hsq : natLE 4 SEQUENCE_NUMBER = [0xfe, 0xff, 0xff, 0xff] := by decide
  refine ⟨[(sign (dsha256 pre)).length + 1] ++ sign (dsha256 pre) ++ [0x41] ++
    [publicKey.length] ++ publicKey, hus, ?_⟩
  simp only [construct_transaction, hbpk, ha, hl, hi, hblout, hpre,
    Option.some_bind, Option.some_bind']
  simp only [Option.pure_def, Option.bind_eq_bind, Option.some_bind']
  rw [hus]
  simp only [Option.some_bind']
  rw [hbus]
  simp only [Option.some_bind']
  simp [lockingScript_def, hv, hsq]

/-- C2: the serialized transaction returned is exactly the concatenation
of: 4-byte LE version; input-count byte `0x01`; the byte-reversed 32-byte
previous-output hash; 4-byte LE previous index; one unlocking-script
length byte; the unlocking script; the 4-byte LE sequence number fixed at
`0xFFFFFFFE`; output-count byte `0x01`; 8-byte LE amount; one
locking-script length byte; the 25-byte locking script; 4-byte LE
locktime — in particular it begins with `01 00 00 00 01`. -/
theorem construct_transaction_serialization (publicKey pubkeyHash_in pubkeyHash_out : List Nat)
    (sign : List Nat → List Nat) (amount locktime : Int) (prevtx_id : List Nat)
    (prevtx_index prevamount : Int)
    (hA : 0 ≤ amount ∧ amount < (2 : Int) ^ 64)
    (hL : 0 ≤ locktime ∧ locktime < (2 : Int) ^ 32)
    (hI : 0 ≤ prevtx_index ∧ prevtx_index < (2 : Int) ^ 32)
    (hP : 0 ≤ prevamount ∧ prevamount < (2 : Int) ^ 64)
    (hin : pubkeyHash_in.length = 20) (hout : pubkeyHash_out.length = 20)
    (hs : ∀ m, (sign m).length + publicKey.length + 3 < 256) :
    ∃ us raw,
      unlockingScript (sign (dsha256 ([0x01, 0x00, 0x00, 0x00] ++
        dsha256 (prevtx_id.reverse ++ natLE 4 prevtx_index.toNat) ++
        dsha256 [0xfe, 0xff, 0xff, 0xff] ++
        (prevtx_id.reverse ++ natLE 4 prevtx_index.toNat) ++
        [0x19] ++ ([0x76, 0xa9, 0x14] ++ pubkeyHash_in ++ [0x88, 0xac]) ++
        natLE 8 prevamount.toNat ++ [0xfe, 0xff, 0xff, 0xff] ++
        dsha256 (natLE 8 amount.toNat ++ [0x19] ++
          ([0x76, 0xa9, 0x14] ++ pubkeyHash_out ++ [0x88, 0xac])) ++
        natLE 4 locktime.toNat ++ [0x41, 0x00, 0x00, 0x00]))) publicKey = some us ∧
      construct_transaction publicKey pubkeyHash_in pubkeyHash_out sign amount
        locktime prevtx_id prevtx_index prevamount = some (raw, txid raw) ∧
      raw = [0x01, 0x00, 0x00, 0x00] ++ [0x01] ++ prevtx_id.reverse ++
        natLE 4 prevtx_index.toNat ++ [us.length] ++ us ++
        [0xfe, 0xff, 0xff, 0xff] ++ [0x01] ++ natLE 8 amount.toNat ++ [0x19] ++
        ([0x76, 0xa9, 0x14] ++ pubkeyHash_out ++ [0x88, 0xac]) ++
        natLE 4 locktime.toNat ∧
      raw.take 5 = [0x01, 0x00, 0x00, 0x00, 0x01] := by
  obtain ⟨us, hus, hc⟩ := construct_transaction_success publicKey pubkeyHash_in
    pubkeyHash_out sign amount locktime prevtx_id prevtx_index prevamount
    hA hL hI hP hin hout hs
  exact ⟨us, _, hus, hc, rfl, rfl⟩

/-- C2 witness: the serialization theorem applied at the reference inputs
with a 33-byte public key and a constant 70-byte signature. -/
theorem construct_transaction_serialization_witness :
    ((0 : Int) ≤ 29066 ∧ (29066 : Int) < 2 ^ 64) ∧
    ((0 : Int) ≤ 522542 ∧ (522542 : Int) < 2 ^ 32) ∧
    ((0 : Int) ≤ 0 ∧ (0 : Int) < 2 ^ 32) ∧
    ((0 : Int) ≤ 29316 ∧ (29316 : Int) < 2 ^ 64) ∧
    (List.replicate 20 1 : List Nat).length = 20 ∧
    (List.replicate 20 3 : List Nat).length = 20 ∧
    (∀ m : List Nat, ((fun _ => List.replicate 70 4) m : List Nat).length +
      (List.replicate 33 2 : List Nat).length + 3 < 256) ∧
    ∃ us raw,
      unlockingScript ((fun _ => List.replicate 70 4)
        (dsha256 ([0x01, 0x00, 0x00, 0x00] ++
        dsha256 ((List.replicate 32 5).reverse ++ natLE 4 (0 : Int).toNat) ++
        dsha256 [0xfe, 0xff, 0xff, 0xff] ++
        ((List.replicate 32 5).reverse ++ natLE 4 (0 : Int).toNat) ++
        [0x19] ++ ([0x76, 0xa9, 0x14] ++ List.replicate 20 1 ++ [0x88, 0xac]) ++
        natLE 8 (29316 : Int).toNat ++ [0xfe, 0xff, 0xff, 0xff] ++
        dsha256 (natLE 8 (29066 : Int).toNat ++ [0x19] ++
          ([0x76, 0xa9, 0x14] ++ List.replicate 20 3 ++ [0x88, 0xac])) ++
        natLE 4 (522542 : Int).toNat ++ [0x41, 0x00, 0x00, 0x00])))
        (List.replicate 33 2) = some us ∧
      construct_transaction (List.replicate 33 2) (List.replicate 20 1)
        (List.replicate 20 3) (fun _ => List.replicate 70 4) 29066 522542
        (List.replicate 32 5) 0 29316 = some (raw, txid raw) ∧
      raw = [0x01, 0x00, 0x00, 0x00] ++ [0x01] ++ (List.replicate 32 5).reverse ++
        natLE 4 (0 : Int).toNat ++ [us.length] ++ us ++
        [0xfe, 0xff, 0xff, 0xff] ++ [0x01] ++ natLE 8 (29066 : Int).toNat ++ [0x19] ++
        ([0x76, 0xa9, 0x14] ++ List.replicate 20 3 ++ [0x88, 0xac]) ++
        natLE 4 (522542 : Int).toNat ∧
      raw.take 5 = [0x01, 0x00, 0x00, 0x00, 0x01] :=
  ⟨⟨by decide, by decide⟩, ⟨by decide, by decide⟩, ⟨by decide, by decide⟩,
    ⟨by decide, by decide⟩, by decide, by decide, by intro m; norm_num,
    construct_transaction_serialization (List.replicate 33 2) (List.replicate 20 1)
      (List.replicate 20 3) (fun _ => List.replicate 70 4) 29066 522542
      (List.replicate 32 5) 0 29316 ⟨by decide, by decide⟩ ⟨by decide, by decide⟩
      ⟨by decide, by decide⟩ ⟨by decide, by decide⟩ (by decide) (by decide)
      (by intro m; norm_num)⟩

/-- C8 counterexample: with `amount = 2` exceeding `prevamount = 1`, and
with `amount = 0`, no `InvalidAmount` failure occurs — transaction bytes
are returned in both cases. -/
theorem construct_transaction_no_amount_check :
    (construct_transaction (List.replicate 33 2) (List.replicate 20 1)
      (List.replicate 20 3) (fun _ => List.replicate 70 4) 2 0
      (List.replicate 32 5) 0 1).isSome = true ∧
    (construct_transaction (List.replicate 33 2) (List.replicate 20 1)
      (List.replicate 20 3) (fun _ => List.replicate 70 4) 0 0
      (List.replicate 32 5) 0 1).isSome = true := by
  constructor <;>
    norm_num [construct_transaction, prehash, preimage, unlockingScript,
      lockingScript, txid, intToBytesLE, byte1, natLE]

/-- C8 amended: `construct_transaction` performs no amount validation:
every amount in `[0, 2^64)` is accepted — including `0` and amounts
exceeding the previous output's amount; a negative amount fails only
through the `OverflowError` of the 8-byte conversion, not through any
`InvalidAmount` check. -/
theorem construct_transaction_amount_unchecked (publicKey pubkeyHash_in pubkeyHash_out : List Nat)
    (sign : List Nat → List Nat) (locktime : Int) (prevtx_id : List Nat)
    (prevtx_index prevamount : Int)
    (hL : 0 ≤ locktime ∧ locktime < (2 : Int) ^ 32)
    (hI : 0 ≤ prevtx_index ∧ prevtx_index < (2 : Int) ^ 32)
    (hP : 0 ≤ prevamount ∧ prevamount < (2 : Int) ^ 64)
    (hin : pubkeyHash_in.length = 20) (hout : pubkeyHash_out.length = 20)
    (hs : ∀ m, (sign m).length + publicKey.length + 3 < 256) :
    (∀ amount : Int, 0 ≤ amount → amount < (2 : Int) ^ 64 →
      (construct_transaction publicKey pubkeyHash_in pubkeyHash_out sign amount
        locktime prevtx_id prevtx_index prevamount).isSome = true) ∧
    (∀ amount : Int, amount < 0 →
      construct_transaction publicKey pubkeyHash_in pubkeyHash_out sign amount
        locktime prevtx_id prevtx_index prevamount = none) := by
  constructor
  · intro amount h0 h1
    obtain ⟨us, _, hc⟩ := construct_transaction_success publicKey pubkeyHash_in
      pubkeyHash_out sign amount locktime prevtx_id prevtx_index prevamount
      ⟨h0, h1⟩ hL hI hP hin hout hs
    rw [hc]
    rfl
  · intro amount hneg
    have hbpk : byte1 publicKey.length = some [publicKey.length] :=
      byte1_of_lt _ (by have := hs []; omega)
    have hna : intToBytesLE 8 amount = none := by
      rw [intToBytesLE, if_neg]
      rintro ⟨h0, _⟩
      omega
    simp [construct_transaction, hbpk, hna]

/-- C8 amended witness: the no-validation theorem applied at the reference
inputs, at `amount = 2 > prevamount = 1` and at `amount = -1`. -/
theorem construct_transaction_amount_unchecked_witness :
    ((0 : Int) ≤ 0 ∧ (0 : Int) < 2 ^ 32) ∧
    ((0 : Int) ≤ 0 ∧ (0 : Int) < 2 ^ 32) ∧
    ((0 : Int) ≤ 1 ∧ (1 : Int) < 2 ^ 64) ∧
    (List.replicate 20 1 : List Nat).length = 20 ∧
    (List.replicate 20 3 : List Nat).length = 20 ∧
    (∀ m : List Nat, ((fun _ => List.replicate 70 4) m : List Nat).length +
      (List.replicate 33 2 : List Nat).length + 3 < 256) ∧
    (0 : Int) ≤ 2 ∧ (2 : Int) < 2 ^ 64 ∧ (-1 : Int) < 0 ∧
    (construct_transaction (List.replicate 33 2) (List.replicate 20 1)
      (List.replicate 20 3) (fun _ => List.replicate 70 4) 2 0
      (List.replicate 32 5) 0 1).isSome = true ∧
    construct_transaction (List.replicate 33 2) (List.replicate 20 1)
      (List.replicate 20 3) (fun _ => List.replicate 70 4) (-1) 0
      (List.replicate 32 5) 0 1 = none :=
  ⟨⟨by decide, by decide⟩, ⟨by decide, by decide⟩, ⟨by decide, by decide⟩,
    by decide, by decide, by intro m; norm_num, by decide, by decide, by decide,
    (construct_transaction_amount_unchecked (List.replicate 33 2) (List.replicate 20 1)
      (List.replicate 20 3) (fun _ => List.replicate 70 4) 0 (List.replicate 32 5) 0 1
      ⟨by decide, by decide⟩ ⟨by decide, by decide⟩ ⟨by decide, by decide⟩
      (by decide) (by decide) (by intro m; norm_num)).1 2 (by decide) (by decide),
    (construct_transaction_amount_unchecked (List.replicate 33 2) (List.replicate 20 1)
      (List.replicate 20 3) (fun _ => List.replicate 70 4) 0 (List.replicate 32 5) 0 1
      ⟨by decide, by decide⟩ ⟨by decide, by decide⟩ ⟨by decide, by decide⟩
      (by decide) (by decide) (by intro m; norm_num)).2 (-1) (by decide)⟩

end SLWallet
